import Mathlib

/-!
Verification of the session-management and command-translation layer of
tauri-plugin-aleo-stronghold (src/src/lib.rs): the session registry keyed by
snapshot path, the DTO types and their translation to engine procedures, the
key-type parser, and the store facade. The engine (`iota_stronghold`) and the
repository's `stronghold` wrapper module are external to src/; the parts of
their behaviour that the properties depend on are modelled from the spec and
marked as such.
-/

namespace AleoStronghold

/-- A snapshot path (Rust `PathBuf`), the registry key. -/
abbrev Path := String

/-- Modelled from the spec: the error taxonomy of the missing `stronghold`
module (src/src/stronghold.rs is not under src/). It distinguishes the
not-initialized error from opaquely passed-through engine errors. -/
inductive Error where
  | strongholdNotInitialized
  | engine (msg : String)
deriving DecidableEq, Repr

/-- Embeds the ASCII action of Rust's `str::to_lowercase`, used by the
key-type parser (all accepted literals are ASCII). -/
def lowerStr (s : String) : String := ⟨s.data.map Char.toLower⟩

/-- The UTF-8 encoding of one character, as Rust's `str::as_bytes` exposes it. -/
def utf8Char (c : Char) : List UInt8 :=
  let v := c.toNat
  if v < 0x80 then [UInt8.ofNat v]
  else if v < 0x800 then
    [UInt8.ofNat (0xC0 ||| (v >>> 6)), UInt8.ofNat (0x80 ||| (v &&& 0x3F))]
  else if v < 0x10000 then
    [UInt8.ofNat (0xE0 ||| (v >>> 12)), UInt8.ofNat (0x80 ||| ((v >>> 6) &&& 0x3F)),
      UInt8.ofNat (0x80 ||| (v &&& 0x3F))]
  else
    [UInt8.ofNat (0xF0 ||| (v >>> 18)), UInt8.ofNat (0x80 ||| ((v >>> 12) &&& 0x3F)),
      UInt8.ofNat (0x80 ||| ((v >>> 6) &&& 0x3F)), UInt8.ofNat (0x80 ||| (v &&& 0x3F))]

/-- The UTF-8 bytes of a string (Rust `str::as_bytes` / `String::into_bytes`). -/
def strBytes (s : String) : List UInt8 :=
  s.data.foldr (fun c acc => utf8Char c ++ acc) []

/-- Embeds `BytesDto` (src/src/lib.rs:54-59): a byte sequence given either as
UTF-8 text or as raw bytes. -/
inductive BytesDto where
  | Text (t : String)
  | Raw (b : List UInt8)
deriving DecidableEq, Repr

/-- Embeds `From<BytesDto> for Vec<u8>` / `AsRef<[u8]>` (src/src/lib.rs:61-77):
the text form contributes its UTF-8 bytes, the raw form its bytes unchanged. -/
def BytesDto.toBytes : BytesDto → List UInt8
  | .Text t => strBytes t
  | .Raw b => b

/-- The serde-untagged wire shape of a `BytesDto`: a plain string or a byte
array, with no discriminant tag. -/
inductive Wire where
  | str (s : String)
  | bytes (b : List UInt8)
deriving DecidableEq, Repr

/-- Serialization of `BytesDto` (serde `untagged`, src/src/lib.rs:54-59): the
text variant writes a plain string, the raw variant a byte array. -/
def BytesDto.toWire : BytesDto → Wire
  | .Text t => .str t
  | .Raw b => .bytes b

/-- Deserialization of the untagged union (src/src/lib.rs:54-59): serde tries
the variants in order, so a plain string parses as `Text` and a byte array as
`Raw`. -/
def BytesDto.ofWire : Wire → BytesDto
  | .str s => .Text s
  | .bytes b => .Raw b

/-- The engine's location handle (`iota_stronghold::Location`): the generic
constructor keeps the key bytes of vault and record, the counter constructor
the vault bytes and a numeric counter. -/
inductive Location where
  | generic (vault record : List UInt8)
  | counter (vault : List UInt8) (ctr : Nat)
deriving DecidableEq, Repr

/-- Embeds `LocationDto` (src/src/lib.rs:79-84). -/
inductive LocationDto where
  | generic (vault record : BytesDto)
  | counter (vault : BytesDto) (ctr : Nat)
deriving DecidableEq, Repr

/-- Embeds `From<LocationDto> for Location` (src/src/lib.rs:86-93):
`Location::generic`/`Location::counter` read the `BytesDto`s through
`AsRef<[u8]>`. -/
def LocationDto.toLocation : LocationDto → Location
  | .generic vault record => .generic vault.toBytes record.toBytes
  | .counter vault n => .counter vault.toBytes n

/-- Embeds `Slip10DeriveInputDto` (src/src/lib.rs:95-101). -/
inductive Slip10DeriveInputDto where
  | Seed (l : LocationDto)
  | Key (l : LocationDto)
deriving DecidableEq, Repr

/-- The engine's `Slip10DeriveInput`. -/
inductive Slip10DeriveInput where
  | Seed (l : Location)
  | Key (l : Location)
deriving DecidableEq, Repr

/-- Embeds `From<Slip10DeriveInputDto> for Slip10DeriveInput`
(src/src/lib.rs:103-110). -/
def Slip10DeriveInputDto.toInput : Slip10DeriveInputDto → Slip10DeriveInput
  | .Seed l => .Seed l.toLocation
  | .Key l => .Key l.toLocation

/-- Embeds `KeyType` (src/src/lib.rs:112-115). -/
inductive KeyType where
  | Ed25519
  | X25519
deriving DecidableEq, Repr

/-- The engine's key type (`iota_stronghold::procedures::KeyType`). -/
inductive StrongholdKeyType where
  | Ed25519
  | X25519
deriving DecidableEq, Repr

/-- Embeds `From<KeyType> for StrongholdKeyType` (src/src/lib.rs:117-124). -/
def KeyType.toStronghold : KeyType → StrongholdKeyType
  | .Ed25519 => .Ed25519
  | .X25519 => .X25519

/-- Embeds the string visitor of `KeyType::deserialize`
(src/src/lib.rs:126-154): the value is lowercased and compared against the two
accepted literals; anything else is the custom serde error "unknown key type". -/
def KeyType.ofString (value : String) : Except String KeyType :=
  if lowerStr value = "ed25519" then .ok .Ed25519
  else if lowerStr value = "x25519" then .ok .X25519
  else .error "unknown key type"

/-- Opaque stand-in for `snarkvm_console::program::Identifier<N>`; the
translator copies it through untouched. -/
structure Identifier where
  name : String
deriving DecidableEq, Repr

/-- Opaque stand-in for `snarkvm_console::program::ProgramID<N>`. -/
structure ProgramID where
  name : String
deriving DecidableEq, Repr

/-- Opaque stand-in for `snarkvm_console::program::Value<N>`. -/
structure AleoValue where
  text : String
deriving DecidableEq, Repr

/-- Opaque stand-in for `snarkvm_console::program::ValueType<N>`. -/
structure AleoValueType where
  text : String
deriving DecidableEq, Repr

/-- Opaque stand-in for `snarkvm_console::program::Field<N>`. -/
structure AleoField where
  val : Nat
deriving DecidableEq, Repr

/-- Opaque stand-in for `snarkvm_console::program::Record<N, Plaintext<N>>`. -/
structure AleoRecord where
  text : String
deriving DecidableEq, Repr

/-- Opaque stand-in for `iota_stronghold::procedures::Curve`; the translator
copies it through untouched. -/
structure Curve where
  tag : String
deriving DecidableEq, Repr

/-- `crypto::keys::bip39::Mnemonic` (built with `Mnemonic::from` on a string). -/
structure Mnemonic where
  phrase : String
deriving DecidableEq, Repr

/-- `crypto::keys::bip39::Passphrase` (built with `Passphrase::from` on a string). -/
structure Passphrase where
  phrase : String
deriving DecidableEq, Repr

/-- `iota_stronghold::procedures::MnemonicLanguage`; the translator always
selects English. -/
inductive MnemonicLanguage where
  | English
deriving DecidableEq, Repr

/-- Engine payload `Slip10Generate`. -/
structure Slip10Generate where
  output : Location
  size_bytes : Option Nat
deriving DecidableEq, Repr

/-- Engine payload `Slip10Derive`. -/
structure Slip10Derive where
  curve : Curve
  chain : List Nat
  input : Slip10DeriveInput
  output : Location
  network : String
deriving DecidableEq, Repr

/-- Engine payload `BIP39Recover`. -/
structure BIP39Recover where
  mnemonic : Mnemonic
  passphrase : Passphrase
  output : Location
deriving DecidableEq, Repr

/-- Engine payload `BIP39Generate`. -/
structure BIP39Generate where
  passphrase : Passphrase
  output : Location
  language : MnemonicLanguage
deriving DecidableEq, Repr

/-- Engine payload `PublicKey`. -/
structure PublicKey where
  ty : StrongholdKeyType
  private_key : Location
deriving DecidableEq, Repr

/-- Engine payload `Ed25519Sign`; the message reaches the engine as bytes. -/
structure Ed25519Sign where
  private_key : Location
  msg : List UInt8
deriving DecidableEq, Repr

/-- Engine payload `AleoSign`. -/
structure AleoSign where
  private_key : Location
  msg : List UInt8
  ext : Identifier
deriving DecidableEq, Repr

/-- Engine payload `GetAleoAddress`. -/
structure GetAleoAddress where
  private_key : Location
  ext : Identifier
deriving DecidableEq, Repr

/-- Engine payload `GetAleoViewKey` (the `PhantomData` network marker is
dropped in the embedding). -/
structure GetAleoViewKey where
  private_key : Location
deriving DecidableEq, Repr

/-- Engine payload `AleoSignRequest`. -/
structure AleoSignRequest where
  program_id : ProgramID
  function_name : Identifier
  inputs : List AleoValue
  input_types : List AleoValueType
  root_tvk : Option AleoField
  is_root : Bool
  private_key : Location
deriving DecidableEq, Repr

/-- Engine payload `AleoAuthorize`. -/
structure AleoAuthorize where
  private_key : Location
  program_id : ProgramID
  function_name : Identifier
  inputs : List AleoValue
deriving DecidableEq, Repr

/-- Engine payload `AleoAuthorizeFeePublic`. -/
structure AleoAuthorizeFeePublic where
  private_key : Location
  base_fee_in_microcredits : Nat
  priority_fee_in_microcredits : Nat
  deployment_or_execution_id : AleoField
deriving DecidableEq, Repr

/-- Engine payload `AleoAuthorizeFeePrivate`. -/
structure AleoAuthorizeFeePrivate where
  private_key : Location
  credits : AleoRecord
  base_fee_in_microcredits : Nat
  priority_fee_in_microcredits : Nat
  deployment_or_execution_id : AleoField
deriving DecidableEq, Repr

/-- Engine payload `AleoExecute`. -/
structure AleoExecute where
  private_key : Location
  program_id : ProgramID
  function_name : Identifier
  inputs : List AleoValue
  fee_record : Option AleoRecord
  priority_fee_in_microcredits : Nat
  base_url : String
deriving DecidableEq, Repr

/-- The engine's closed procedure union
(`iota_stronghold::procedures::StrongholdProcedure`). -/
inductive StrongholdProcedure where
  | slip10Generate (p : Slip10Generate)
  | slip10Derive (p : Slip10Derive)
  | bip39Recover (p : BIP39Recover)
  | bip39Generate (p : BIP39Generate)
  | publicKey (p : PublicKey)
  | ed25519Sign (p : Ed25519Sign)
  | aleoSign (p : AleoSign)
  | getAleoAddress (p : GetAleoAddress)
  | getAleoViewKey (p : GetAleoViewKey)
  | aleoSignRequest (p : AleoSignRequest)
  | aleoAuthorize (p : AleoAuthorize)
  | aleoAuthorizeFeePublic (p : AleoAuthorizeFeePublic)
  | aleoAuthorizeFeePrivate (p : AleoAuthorizeFeePrivate)
  | aleoExecute (p : AleoExecute)
deriving DecidableEq, Repr

/-- Embeds `ProcedureDto<N>` (src/src/lib.rs:156-247), the externally-tagged
command payload (the `PhantomData` network marker of `GetAleoViewKey` is
dropped in the embedding). -/
inductive ProcedureDto where
  | slip10Generate (output : LocationDto) (size_bytes : Option Nat)
  | slip10Derive (curve : Curve) (chain : List Nat) (input : Slip10DeriveInputDto)
      (output : LocationDto) (network : String)
  | bip39Recover (mnemonic : String) (passphrase : Option String) (output : LocationDto)
  | bip39Generate (passphrase : Option String) (output : LocationDto)
  | publicKey (ty : KeyType) (private_key : LocationDto)
  | ed25519Sign (private_key : LocationDto) (msg : String)
  | aleoSign (private_key : LocationDto) (msg : String) (ext : Identifier)
  | getAleoAddress (private_key : LocationDto) (ext : Identifier)
  | getAleoViewKey (private_key : LocationDto)
  | aleoSignRequest (program_id : ProgramID) (function_name : Identifier)
      (inputs : List AleoValue) (input_types : List AleoValueType)
      (root_tvk : Option AleoField) (is_root : Bool) (private_key : LocationDto)
  | aleoAuthorize (private_key : LocationDto) (program_id : ProgramID)
      (function_name : Identifier) (inputs : List AleoValue)
  | aleoAuthorizeFeePublic (private_key : LocationDto) (base_fee_in_microcredits : Nat)
      (priority_fee_in_microcredits : Nat) (deployment_or_execution_id : AleoField)
  | aleoAuthorizeFeePrivate (private_key : LocationDto) (credits : AleoRecord)
      (base_fee_in_microcredits : Nat) (priority_fee_in_microcredits : Nat)
      (deployment_or_execution_id : AleoField)
  | aleoExecute (private_key : LocationDto) (program_id : ProgramID)
      (function_name : Identifier) (inputs : List AleoValue)
      (fee_record : Option AleoRecord) (priority_fee_in_microcredits : Nat)
      (base_url : String)
deriving DecidableEq, Repr

/-- Embeds `From<ProcedureDto<N>> for StrongholdProcedure<N>`
(src/src/lib.rs:249-392): an exhaustive per-variant field copy; an absent
optional passphrase becomes `Passphrase::from("")`, text messages become
their UTF-8 bytes, locations resolve through `LocationDto.toLocation`. -/
def ProcedureDto.toStronghold : ProcedureDto → StrongholdProcedure
  | .slip10Generate output size_bytes =>
      .slip10Generate ⟨output.toLocation, size_bytes⟩
  | .slip10Derive curve chain input output network =>
      .slip10Derive ⟨curve, chain, input.toInput, output.toLocation, network⟩
  | .bip39Recover mnemonic passphrase output =>
      .bip39Recover ⟨⟨mnemonic⟩, ⟨passphrase.getD ""⟩, output.toLocation⟩
  | .bip39Generate passphrase output =>
      .bip39Generate ⟨⟨passphrase.getD ""⟩, output.toLocation, .English⟩
  | .publicKey ty private_key =>
      .publicKey ⟨ty.toStronghold, private_key.toLocation⟩
  | .ed25519Sign private_key msg =>
      .ed25519Sign ⟨private_key.toLocation, strBytes msg⟩
  | .aleoSign private_key msg ext =>
      .aleoSign ⟨private_key.toLocation, strBytes msg, ext⟩
  | .getAleoAddress private_key ext =>
      .getAleoAddress ⟨private_key.toLocation, ext⟩
  | .getAleoViewKey private_key =>
      .getAleoViewKey ⟨private_key.toLocation⟩
  | .aleoSignRequest program_id function_name inputs input_types root_tvk is_root
      private_key =>
      .aleoSignRequest ⟨program_id, function_name, inputs, input_types, root_tvk,
        is_root, private_key.toLocation⟩
  | .aleoAuthorize private_key program_id function_name inputs =>
      .aleoAuthorize ⟨private_key.toLocation, program_id, function_name, inputs⟩
  | .aleoAuthorizeFeePublic private_key base_fee priority_fee dep_id =>
      .aleoAuthorizeFeePublic ⟨private_key.toLocation, base_fee, priority_fee, dep_id⟩
  | .aleoAuthorizeFeePrivate private_key credits base_fee priority_fee dep_id =>
      .aleoAuthorizeFeePrivate
        ⟨private_key.toLocation, credits, base_fee, priority_fee, dep_id⟩
  | .aleoExecute private_key program_id function_name inputs fee_record priority_fee
      base_url =>
      .aleoExecute ⟨private_key.toLocation, program_id, function_name, inputs,
        fee_record, priority_fee, base_url⟩

/-- Modelled from the spec: a client's auxiliary key/value store (§4.4), each
record carrying its key bytes, value bytes and optional time-to-live. -/
abbrev Store := List (List UInt8 × List UInt8 × Option Nat)

/-- Modelled from the spec: store lookup — the prior value if a record for the
key exists, `none` if absent; absence is never an error (§4.4). -/
def Store.get : Store → List UInt8 → Option (List UInt8)
  | [], _ => none
  | e :: rest, k => if e.1 = k then some e.2.1 else Store.get rest k

/-- Modelled from the spec: store insertion installs the new record and hands
back the value previously stored under the key (`Store::insert` of the engine's
client store, the mutation counterpart of §4.4's prior-value contract). -/
def Store.insert (st : Store) (k v : List UInt8) (lifetime : Option Nat) :
    Store × Option (List UInt8) :=
  ((k, v, lifetime) :: st.filter (fun e => e.1 ≠ k), Store.get st k)

/-- Modelled from the spec: store deletion removes the record and returns the
prior value (§4.4). -/
def Store.delete (st : Store) (k : List UInt8) : Store × Option (List UInt8) :=
  (st.filter (fun e => e.1 ≠ k), Store.get st k)

/-- Modelled from the spec: a client namespace within a snapshot; only its
store is given concretely, vault and procedure effects stay engine oracles. -/
structure Client where
  store : Store
deriving DecidableEq, Repr

/-- Modelled from the spec: a Session — the open handle the missing
`stronghold::Stronghold` wrapper holds. `save_err` is the outcome the engine
will report for persisting this session (`none` = success), and `clients` the
loaded client namespaces keyed by their identifier bytes. -/
structure Stronghold where
  save_err : Option Error
  clients : List (List UInt8 × Client)
deriving DecidableEq, Repr

/-- Modelled from the spec: `stronghold::Stronghold::save` persists the session
to disk and surfaces the engine's outcome opaquely. -/
def Stronghold.save (s : Stronghold) : Except Error Unit :=
  match s.save_err with
  | some e => .error e
  | none => .ok ()

/-- Association lookup among loaded clients. -/
def lookupClient : List (List UInt8 × Client) → List UInt8 → Option Client
  | [], _ => none
  | e :: rest, k => if e.1 = k then some e.2 else lookupClient rest k

/-- Modelled from the spec: `stronghold::Stronghold::get_client` — the client
namespace if it is loaded, an opaque engine error otherwise. -/
def Stronghold.getClient (s : Stronghold) (client : BytesDto) : Except Error Client :=
  match lookupClient s.clients client.toBytes with
  | some cl => .ok cl
  | none => .error (Error.engine "client not loaded")

/-- Replaces (or adds) the client stored under the given identifier bytes,
modelling the engine's shared-state mutation of a client handle. -/
def Stronghold.setClient (s : Stronghold) (key : List UInt8) (cl : Client) :
    Stronghold :=
  { s with clients := (key, cl) :: s.clients.filter (fun e => e.1 ≠ key) }

/-- The registry map of `StrongholdCollection` (src/src/lib.rs:50), as the
function a `HashMap<PathBuf, Stronghold>` denotes. -/
abbrev Registry := Path → Option Stronghold

/-- `HashMap::insert`: the entry under `p` is replaced, every other entry kept. -/
def Registry.insert (reg : Registry) (p : Path) (s : Stronghold) : Registry :=
  fun q => if q = p then some s else reg q

/-- `HashMap::remove`: the entry under `p` is dropped, every other entry kept. -/
def Registry.remove (reg : Registry) (p : Path) : Registry :=
  fun q => if q = p then none else reg q

/-- The registry with no open session. -/
def emptyRegistry : Registry := fun _ => none

/-- Embeds `password.zeroize()` (zeroize crate contract): every byte of the
buffer is overwritten with zeros. -/
def zeroize (buf : List UInt8) : List UInt8 := buf.map fun _ => 0

/-- What `initialize` (src/src/lib.rs:394-411) leaves behind: its result, the
registry after the call, and the password buffer after the call. -/
structure InitOutcome where
  result : Except Error Unit
  registry : Registry
  password : List UInt8

/-- Embeds `initialize` (src/src/lib.rs:394-411): hash the password, scrub the
password buffer, open the snapshot, and on success insert the session under
its path. `engineNew` models `stronghold::Stronghold::new` (not under src/):
per the spec it opens/creates the snapshot with the derived key and may fail
with an engine-open error. -/
def initStronghold (engineNew : Path → List UInt8 → Except Error Stronghold)
    (reg : Registry) (hash_function : List UInt8 → List UInt8)
    (snapshot_path : Path) (password : List UInt8) : InitOutcome :=
  let hash := hash_function password
  let password := zeroize password
  match engineNew snapshot_path hash with
  | .error e => ⟨.error e, reg, password⟩
  | .ok stronghold => ⟨.ok (), reg.insert snapshot_path stronghold, password⟩

/-- Embeds `destroy` (src/src/lib.rs:413-422): remove the session if present,
persist it, and on persistence failure reinsert it under the same key and
surface the error; absence is a no-op success. Returns (result, registry
after the call). -/
def destroy (reg : Registry) (snapshot_path : Path) : Except Error Unit × Registry :=
  match reg snapshot_path with
  | none => (.ok (), reg)
  | some stronghold =>
    match stronghold.save with
    | .error e => (.error e, (reg.remove snapshot_path).insert snapshot_path stronghold)
    | .ok _ => (.ok (), reg.remove snapshot_path)

/-- Embeds `save` (src/src/lib.rs:424-430): persist the session at the path
without removing it; absence is a no-op success. The registry itself is never
changed. -/
def save (reg : Registry) (snapshot_path : Path) : Except Error Unit × Registry :=
  match reg snapshot_path with
  | none => (.ok (), reg)
  | some stronghold =>
    match stronghold.save with
    | .error e => (.error e, reg)
    | .ok _ => (.ok (), reg)

/-- Embeds `get_stronghold` (src/src/lib.rs:547-557): the session for the path,
or the not-initialized error. -/
def get_stronghold (reg : Registry) (snapshot_path : Path) : Except Error Stronghold :=
  match reg snapshot_path with
  | some stronghold => .ok stronghold
  | none => .error Error.strongholdNotInitialized

/-- Embeds `get_client` (src/src/lib.rs:559-570): the client of the session for
the path, or the not-initialized error when no session is open. -/
def get_client (reg : Registry) (snapshot_path : Path) (client : BytesDto) :
    Except Error Client :=
  match reg snapshot_path with
  | some stronghold => stronghold.getClient client
  | none => .error Error.strongholdNotInitialized

/-- Embeds `create_client` (src/src/lib.rs:432-440); `engineCreate` models
`stronghold::Stronghold::create_client` (not under src/). -/
def create_client (engineCreate : Stronghold → BytesDto → Except Error Unit)
    (reg : Registry) (snapshot_path : Path) (client : BytesDto) : Except Error Unit := do
  let s ← get_stronghold reg snapshot_path
  engineCreate s client

/-- Embeds `load_client` (src/src/lib.rs:442-450); `engineLoad` models
`stronghold::Stronghold::load_client` (not under src/). -/
def load_client (engineLoad : Stronghold → BytesDto → Except Error Unit)
    (reg : Registry) (snapshot_path : Path) (client : BytesDto) : Except Error Unit := do
  let s ← get_stronghold reg snapshot_path
  engineLoad s client

/-- Embeds `get_store_record` (src/src/lib.rs:452-460): the store lookup in the
client's store, `none` for an absent record. -/
def get_store_record (reg : Registry) (snapshot_path : Path) (client : BytesDto)
    (key : String) : Except Error (Option (List UInt8)) := do
  let cl ← get_client reg snapshot_path client
  pure (Store.get cl.store (strBytes key))

/-- Embeds `save_store_record` (src/src/lib.rs:462-475): insert into the
client's store under the key's UTF-8 bytes and return the prior value; the
updated client is written back through the shared session (result, registry
after the call). -/
def save_store_record (reg : Registry) (snapshot_path : Path) (client : BytesDto)
    (key : String) (value : List UInt8) (lifetime : Option Nat) :
    Except Error (Option (List UInt8)) × Registry :=
  match reg snapshot_path with
  | none => (.error Error.strongholdNotInitialized, reg)
  | some s =>
    match s.getClient client with
    | .error e => (.error e, reg)
    | .ok cl =>
      let r := Store.insert cl.store (strBytes key) value lifetime
      (.ok r.2,
        reg.insert snapshot_path (s.setClient client.toBytes { cl with store := r.1 }))

/-- Embeds `remove_store_record` (src/src/lib.rs:477-485): delete from the
client's store and return the prior value (result, registry after the call). -/
def remove_store_record (reg : Registry) (snapshot_path : Path) (client : BytesDto)
    (key : String) : Except Error (Option (List UInt8)) × Registry :=
  match reg snapshot_path with
  | none => (.error Error.strongholdNotInitialized, reg)
  | some s =>
    match s.getClient client with
    | .error e => (.error e, reg)
    | .ok cl =>
      let r := Store.delete cl.store (strBytes key)
      (.ok r.2,
        reg.insert snapshot_path (s.setClient client.toBytes { cl with store := r.1 }))

/-- Embeds `save_secret` (src/src/lib.rs:487-503); `engineWrite` models the
engine's `vault(...).write_secret` on the generic location built from the
vault and record path bytes. -/
def save_secret (engineWrite : Client → List UInt8 → Location → List UInt8 → Except Error Unit)
    (reg : Registry) (snapshot_path : Path) (client vault record_path : BytesDto)
    (secret : List UInt8) : Except Error Unit := do
  let cl ← get_client reg snapshot_path client
  engineWrite cl vault.toBytes (Location.generic vault.toBytes record_path.toBytes) secret

/-- Embeds `unsafe_get_secret` (src/src/lib.rs:505-517), named `get_secret`
here; `engineRead` models the engine's `vault(...).read_secret`. -/
def get_secret (engineRead : Client → List UInt8 → List UInt8 → Except Error (List UInt8))
    (reg : Registry) (snapshot_path : Path) (client vault record_path : BytesDto) :
    Except Error (List UInt8) := do
  let cl ← get_client reg snapshot_path client
  engineRead cl vault.toBytes record_path.toBytes

/-- Embeds `remove_secret` (src/src/lib.rs:519-532); `engineDelete` models the
engine's `vault(...).delete_secret`, whose payload is discarded (`map(|_| ())`). -/
def remove_secret (engineDelete : Client → List UInt8 → List UInt8 → Except Error Bool)
    (reg : Registry) (snapshot_path : Path) (client vault record_path : BytesDto) :
    Except Error Unit := do
  let cl ← get_client reg snapshot_path client
  let _ ← engineDelete cl vault.toBytes record_path.toBytes
  pure ()

/-- Embeds `execute_procedure` (src/src/lib.rs:534-545); `engineExec` models the
engine's `Client::execute_procedure` on the translated procedure. -/
def execute_procedure
    (engineExec : Client → StrongholdProcedure → Except Error (List UInt8))
    (reg : Registry) (snapshot_path : Path) (client : BytesDto)
    (procedure : ProcedureDto) : Except Error (List UInt8) := do
  let cl ← get_client reg snapshot_path client
  engineExec cl procedure.toStronghold

/-- A concrete client fixture: one store record with key bytes `[9]`. -/
def sampleClient : Client := ⟨[([9], [1, 2], none)]⟩

/-- A session whose persistence fails, holding `sampleClient` under id `[3]`. -/
def failingStronghold : Stronghold :=
  ⟨some (Error.engine "flush failed"), [([3], sampleClient)]⟩

/-- A session whose persistence succeeds, holding `sampleClient` under id `[3]`. -/
def okStronghold : Stronghold := ⟨none, [([3], sampleClient)]⟩

/-- A registry with the failing session open at path "snap". -/
def failingRegistry : Registry :=
  fun q => if q = "snap" then some failingStronghold else none

/-- A registry with the succeeding session open at path "snap". -/
def okRegistry : Registry :=
  fun q => if q = "snap" then some okStronghold else none

/-! ## Helper lemmas -/

/-- Inserting under `p` makes `p` map to the inserted session. -/
theorem Registry.insert_self (reg : Registry) (p : Path) (s : Stronghold) :
    reg.insert p s p = some s := by
  simp [Registry.insert]

/-- After writing a client back under its identifier bytes, `getClient` finds it. -/
theorem getClient_setClient (s : Stronghold) (c : BytesDto) (cl : Client) :
    (s.setClient c.toBytes cl).getClient c = .ok cl := by
  simp [Stronghold.setClient, Stronghold.getClient, lookupClient]

/-! ## Claims -/

/-- C1: if the registry holds a session for `p` and that session's persistence
fails, `destroy reg p` surfaces the persistence error and the registry after
the call again contains the same session under `p` — in fact it equals the
pre-call registry. -/
theorem destroy_rollback_on_save_failure (reg : Registry) (p : Path) (s : Stronghold)
    (e : Error) (hreg : reg p = some s) (hsave : s.save = .error e) :
    (destroy reg p).1 = .error e ∧ (destroy reg p).2 p = some s ∧
      (destroy reg p).2 = reg := by
  have hd : destroy reg p = (.error e, (reg.remove p).insert p s) := by
    simp [destroy, hreg, hsave]
  refine ⟨by rw [hd], by rw [hd]; exact Registry.insert_self _ p s, ?_⟩
  rw [hd]
  funext q
  by_cases hq : q = p
  · subst hq; simp [Registry.insert, hreg]
  · simp [Registry.insert, Registry.remove, hq]

/-- C1 witness: the rollback at a concrete registry whose session's flush fails. -/
theorem destroy_rollback_on_save_failure_w :
    (destroy failingRegistry "snap").1 = .error (Error.engine "flush failed") ∧
    (destroy failingRegistry "snap").2 "snap" = some failingStronghold ∧
    (destroy failingRegistry "snap").2 = failingRegistry :=
  destroy_rollback_on_save_failure failingRegistry "snap" failingStronghold
    (Error.engine "flush failed") rfl rfl

/-- C2 counterexample: for a never-initialized path, `destroy` and `save` do
not fail with the not-initialized error — they succeed as no-ops, so not every
registry operation other than the initialization fails on such a path. -/
theorem never_initialized_destroy_save_succeed :
    emptyRegistry "nofile" = none ∧
    (destroy emptyRegistry "nofile").1 = .ok () ∧
    (save emptyRegistry "nofile").1 = .ok () ∧
    (destroy emptyRegistry "nofile").1 ≠ .error Error.strongholdNotInitialized ∧
    (save emptyRegistry "nofile").1 ≠ .error Error.strongholdNotInitialized := by
  refine ⟨rfl, rfl, rfl, ?_, ?_⟩ <;> simp [destroy, save, emptyRegistry]

/-- C2 (amended): for a never-initialized path, every registry operation other
than initialization, `destroy` and `save` — client management, the store
operations, the vault operations and procedure execution — fails with the
not-initialized error, whatever the engine would do. -/
theorem never_initialized_ops_fail
    (reg : Registry) (p : Path)
    (engineCreate engineLoad : Stronghold → BytesDto → Except Error Unit)
    (engineWrite : Client → List UInt8 → Location → List UInt8 → Except Error Unit)
    (engineRead : Client → List UInt8 → List UInt8 → Except Error (List UInt8))
    (engineDelete : Client → List UInt8 → List UInt8 → Except Error Bool)
    (engineExec : Client → StrongholdProcedure → Except Error (List UInt8))
    (client vault record_path : BytesDto) (key : String) (value secret : List UInt8)
    (lifetime : Option Nat) (procedure : ProcedureDto)
    (h : reg p = none) :
    create_client engineCreate reg p client = .error Error.strongholdNotInitialized ∧
    load_client engineLoad reg p client = .error Error.strongholdNotInitialized ∧
    get_store_record reg p client key = .error Error.strongholdNotInitialized ∧
    (save_store_record reg p client key value lifetime).1 =
      .error Error.strongholdNotInitialized ∧
    (remove_store_record reg p client key).1 = .error Error.strongholdNotInitialized ∧
    save_secret engineWrite reg p client vault record_path secret =
      .error Error.strongholdNotInitialized ∧
    get_secret engineRead reg p client vault record_path =
      .error Error.strongholdNotInitialized ∧
    remove_secret engineDelete reg p client vault record_path =
      .error Error.strongholdNotInitialized ∧
    execute_procedure engineExec reg p client procedure =
      .error Error.strongholdNotInitialized := by
  refine ⟨?_, ?_, ?_, ?_, ?_, ?_, ?_, ?_, ?_⟩ <;>
    simp [create_client, load_client, get_store_record, save_store_record,
      remove_store_record, save_secret, get_secret, remove_secret,
      execute_procedure, get_stronghold, get_client, h, Bind.bind, Except.bind]

/-- C2 witness: all nine non-lifecycle operations fail with not-initialized on
an empty registry, under arbitrary concrete engine behaviour. -/
theorem never_initialized_ops_fail_w :
    create_client (fun _ _ => .ok ()) emptyRegistry "nofile" (.Raw [3]) =
      .error Error.strongholdNotInitialized ∧
    load_client (fun _ _ => .ok ()) emptyRegistry "nofile" (.Raw [3]) =
      .error Error.strongholdNotInitialized ∧
    get_store_record emptyRegistry "nofile" (.Raw [3]) "k" =
      .error Error.strongholdNotInitialized ∧
    (save_store_record emptyRegistry "nofile" (.Raw [3]) "k" [1] none).1 =
      .error Error.strongholdNotInitialized ∧
    (remove_store_record emptyRegistry "nofile" (.Raw [3]) "k").1 =
      .error Error.strongholdNotInitialized ∧
    save_secret (fun _ _ _ _ => .ok ()) emptyRegistry "nofile" (.Raw [3]) (.Raw [4])
      (.Raw [5]) [2] = .error Error.strongholdNotInitialized ∧
    get_secret (fun _ _ _ => .ok []) emptyRegistry "nofile" (.Raw [3]) (.Raw [4])
      (.Raw [5]) = .error Error.strongholdNotInitialized ∧
    remove_secret (fun _ _ _ => .ok true) emptyRegistry "nofile" (.Raw [3]) (.Raw [4])
      (.Raw [5]) = .error Error.strongholdNotInitialized ∧
    execute_procedure (fun _ _ => .ok []) emptyRegistry "nofile" (.Raw [3])
      (.bip39Generate none (.generic (.Raw [0]) (.Raw [1]))) =
      .error Error.strongholdNotInitialized :=
  never_initialized_ops_fail emptyRegistry "nofile"
    (fun _ _ => .ok ()) (fun _ _ => .ok ())
    (fun _ _ _ _ => .ok ()) (fun _ _ _ => .ok [])
    (fun _ _ _ => .ok true) (fun _ _ => .ok [])
    (.Raw [3]) (.Raw [4]) (.Raw [5]) "k" [1] [2] none
    (.bip39Generate none (.generic (.Raw [0]) (.Raw [1]))) rfl

/-- C3: when no session is open for `p`, both `destroy` and `save` return
success and leave the registry exactly as it was. -/
theorem absent_path_noop (reg : Registry) (p : Path) (h : reg p = none) :
    destroy reg p = (.ok (), reg) ∧ save reg p = (.ok (), reg) := by
  constructor
  · unfold destroy; rw [h]
  · unfold save; rw [h]

/-- C3 witness: the no-op success on the empty registry. -/
theorem absent_path_noop_w :
    destroy emptyRegistry "nofile" = (.ok (), emptyRegistry) ∧
    save emptyRegistry "nofile" = (.ok (), emptyRegistry) :=
  absent_path_noop emptyRegistry "nofile" rfl

/-- C4: the key-type parser succeeds exactly when the lowercase normalization
of the input is "ed25519" (giving Ed25519) or "x25519" (giving X25519), every
other input failing with the "unknown key type" error; in particular
"Ed25519", "ED25519" and "ed25519" parse to Ed25519 and "curve25519" fails. -/
theorem keytype_parse_spec (s : String) :
    (KeyType.ofString s = .ok KeyType.Ed25519 ↔ lowerStr s = "ed25519") ∧
    (KeyType.ofString s = .ok KeyType.X25519 ↔ lowerStr s = "x25519") ∧
    (KeyType.ofString s = .error "unknown key type" ↔
      lowerStr s ≠ "ed25519" ∧ lowerStr s ≠ "x25519") ∧
    KeyType.ofString "Ed25519" = .ok KeyType.Ed25519 ∧
    KeyType.ofString "ED25519" = .ok KeyType.Ed25519 ∧
    KeyType.ofString "ed25519" = .ok KeyType.Ed25519 ∧
    KeyType.ofString "x25519" = .ok KeyType.X25519 ∧
    KeyType.ofString "X25519" = .ok KeyType.X25519 ∧
    KeyType.ofString "curve25519" = .error "unknown key type" := by
  refine ⟨?_, ?_, ?_, rfl, rfl, rfl, rfl, rfl, rfl⟩ <;>
  · unfold KeyType.ofString
    by_cases h1 : lowerStr s = "ed25519"
    · simp [h1]
    · by_cases h2 : lowerStr s = "x25519" <;> simp [h1, h2]

/-- C5: after the initialization operation returns — whatever the engine-open
outcome — the password buffer has every byte overwritten with zero (its length
is unchanged and all bytes are zero). -/
theorem init_scrubs_password (engineNew : Path → List UInt8 → Except Error Stronghold)
    (reg : Registry) (hash_function : List UInt8 → List UInt8) (p : Path)
    (password : List UInt8) :
    (initStronghold engineNew reg hash_function p password).password =
      List.replicate password.length 0 := by
  cases h : engineNew p (hash_function password) <;>
    simp [initStronghold, zeroize, h, List.map_const']

/-- C6: a successful initialization returns success and the registry after the
call is exactly the old registry with the new session inserted under the path:
`p` now maps to the new session (silently replacing any previous entry) and
every other path is untouched. -/
theorem init_inserts_session (engineNew : Path → List UInt8 → Except Error Stronghold)
    (reg : Registry) (hash_function : List UInt8 → List UInt8) (p : Path)
    (password : List UInt8) (s : Stronghold)
    (h : engineNew p (hash_function password) = .ok s) :
    (initStronghold engineNew reg hash_function p password).result = .ok () ∧
    (initStronghold engineNew reg hash_function p password).registry p = some s ∧
    (initStronghold engineNew reg hash_function p password).registry =
      reg.insert p s := by
  refine ⟨?_, ?_, ?_⟩ <;> simp [initStronghold, h, Registry.insert]

/-- C6 witness: initializing over a registry that already holds a (failing)
session at "snap" replaces that entry with the new session. -/
theorem init_inserts_session_w :
    (initStronghold (fun _ _ => .ok okStronghold) failingRegistry (fun h => h)
      "snap" [7]).result = .ok () ∧
    (initStronghold (fun _ _ => .ok okStronghold) failingRegistry (fun h => h)
      "snap" [7]).registry "snap" = some okStronghold ∧
    (initStronghold (fun _ _ => .ok okStronghold) failingRegistry (fun h => h)
      "snap" [7]).registry = failingRegistry.insert "snap" okStronghold :=
  init_inserts_session (fun _ _ => .ok okStronghold) failingRegistry (fun h => h)
    "snap" [7] okStronghold rfl

/-- C7: a Tagged Value serialized to its untagged wire shape and deserialized
back has byte-identical content; the text form contributes exactly its UTF-8
bytes and the raw form its bytes unchanged. -/
theorem bytesdto_wire_roundtrip :
    (∀ v : BytesDto, (BytesDto.ofWire v.toWire).toBytes = v.toBytes) ∧
    (∀ t : String, (BytesDto.Text t).toBytes = strBytes t) ∧
    (∀ b : List UInt8, (BytesDto.Raw b).toBytes = b) :=
  ⟨fun v => by cases v <;> rfl, fun _ => rfl, fun _ => rfl⟩

/-- C8: the procedure translation gives the mnemonic-recover and
mnemonic-generate requests the empty-string passphrase when the optional
passphrase is absent, and passes a present passphrase through unchanged. -/
theorem passphrase_defaults_empty :
    (∀ m out, (ProcedureDto.bip39Recover m none out).toStronghold =
      .bip39Recover ⟨⟨m⟩, ⟨""⟩, out.toLocation⟩) ∧
    (∀ m pp out, (ProcedureDto.bip39Recover m (some pp) out).toStronghold =
      .bip39Recover ⟨⟨m⟩, ⟨pp⟩, out.toLocation⟩) ∧
    (∀ out, (ProcedureDto.bip39Generate none out).toStronghold =
      .bip39Generate ⟨⟨""⟩, out.toLocation, .English⟩) ∧
    (∀ pp out, (ProcedureDto.bip39Generate (some pp) out).toStronghold =
      .bip39Generate ⟨⟨pp⟩, out.toLocation, .English⟩) :=
  ⟨fun _ _ => rfl, fun _ _ _ => rfl, fun _ => rfl, fun _ _ => rfl⟩

/-- C9: when the engine open/create step fails, the initialization operation
returns that error and the registry is left completely unchanged. -/
theorem init_error_leaves_registry
    (engineNew : Path → List UInt8 → Except Error Stronghold)
    (reg : Registry) (hash_function : List UInt8 → List UInt8) (p : Path)
    (password : List UInt8) (e : Error)
    (h : engineNew p (hash_function password) = .error e) :
    (initStronghold engineNew reg hash_function p password).result = .error e ∧
    (initStronghold engineNew reg hash_function p password).registry = reg := by
  refine ⟨?_, ?_⟩ <;> simp [initStronghold, h]

/-- C9 witness: a failing engine open at a concrete registry changes nothing. -/
theorem init_error_leaves_registry_w :
    (initStronghold (fun _ _ => .error (Error.engine "open failed")) okRegistry
      (fun h => h) "other" [1, 2]).result = .error (Error.engine "open failed") ∧
    (initStronghold (fun _ _ => .error (Error.engine "open failed")) okRegistry
      (fun h => h) "other" [1, 2]).registry = okRegistry :=
  init_error_leaves_registry (fun _ _ => .error (Error.engine "open failed"))
    okRegistry (fun h => h) "other" [1, 2] (Error.engine "open failed") rfl

/-- C10: on success, `save_store_record` returns the value previously stored
under the key in that client's store (`some` prior bytes, or `none` when the
record did not exist), and installs the new value: a subsequent
`get_store_record` on the same key returns it. -/
theorem save_store_returns_prior (reg : Registry) (p : Path) (c : BytesDto)
    (key : String) (value : List UInt8) (lifetime : Option Nat)
    (s : Stronghold) (cl : Client)
    (hreg : reg p = some s) (hcl : s.getClient c = .ok cl) :
    (save_store_record reg p c key value lifetime).1 =
      .ok (Store.get cl.store (strBytes key)) ∧
    get_store_record (save_store_record reg p c key value lifetime).2 p c key =
      .ok (some value) := by
  have hs : save_store_record reg p c key value lifetime =
      (.ok (Store.get cl.store (strBytes key)),
        reg.insert p (s.setClient c.toBytes
          { cl with store :=
              (strBytes key, value, lifetime) ::
                cl.store.filter (fun e => e.1 ≠ strBytes key) })) := by
    simp [save_store_record, hreg, hcl, Store.insert]
  refine ⟨by rw [hs], ?_⟩
  rw [hs]
  simp [get_store_record, get_client, Registry.insert, getClient_setClient,
    Store.get]

/-- C10 witness: storing under a fresh key returns `none` as the prior value
and a following lookup returns the new value. -/
theorem save_store_returns_prior_w :
    (save_store_record okRegistry "snap" (.Raw [3]) "k" [5] none).1 =
      .ok (Store.get sampleClient.store (strBytes "k")) ∧
    get_store_record (save_store_record okRegistry "snap" (.Raw [3]) "k" [5] none).2
      "snap" (.Raw [3]) "k" = .ok (some [5]) :=
  save_store_returns_prior okRegistry "snap" (.Raw [3]) "k" [5] none okStronghold
    sampleClient rfl rfl

end AleoStronghold
